import Mathlib

/-!
Verification of the wasm host-function runtime
(`ethcore/src/evm/wasm/runtime.rs`).

The runtime is embedded shallowly: machine integers are `Nat` with explicit
`% 2^32` / `% 2^64` where the Rust (release-mode) arithmetic wraps, fallible
operations return `Except`, and the mutable `Runtime` is threaded as explicit
state.  Collaborating code that lives outside `runtime.rs` (the pointer
validator `ptr.rs`, `call_args.rs`, the interpreter's memory instance and the
UTF-8 check of `String::from_utf8`) is modelled from the specification and
marked as such in its doc comment.
-/

/-- Reinterpret an interpreter i32 value as an unsigned 32-bit offset
(Rust `as u32` on an `i32`). -/
def toU32 (v : Int) : Nat := (v % (2 ^ 32 : Int)).toNat

/-- Reinterpret an interpreter i32 value as an unsigned 64-bit amount
(Rust `as u64` on an `i32`, which sign-extends). -/
def toU64 (v : Int) : Nat := (v % (2 ^ 64 : Int)).toNat

/-- Reinterpret an unsigned 32-bit value as an i32 (Rust `as i32` on a `u32`). -/
def toI32 (n : Nat) : Int :=
  if n % 2 ^ 32 < 2 ^ 31 then ((n % 2 ^ 32 : Nat) : Int)
  else ((n % 2 ^ 32 : Nat) : Int) - 2 ^ 32

/-- Error of the pointer validator (`ptr::Error`). -/
inductive PtrError where
  | AccessViolation
deriving DecidableEq

/-- Interpreter-level error (`parity_wasm::interpreter::Error`): a named trap,
an operand-stack failure (underflow or type mismatch on `pop_as`), or a
memory-access failure reported by the memory instance itself. -/
inductive InterpreterError where
  | Trap (msg : String)
  | StackError
  | MemoryAccess
deriving DecidableEq

/-- The runtime's own error enum (`runtime::Error`). -/
inductive RuntimeError where
  | Storage
  | Allocator
  | InvalidGasState
  | AccessViolation
  | Interpreter (e : InterpreterError)
deriving DecidableEq

deriving instance DecidableEq for Except

/-- Modelled from the spec: the interpreter's linear-memory handle
(`interpreter::MemoryInstance`, not under `src/`) supports bounds-checked
read and write by offset and length and reports its current size.  Bytes are
`Nat` values; only offsets below `size` are meaningful. -/
structure MemoryInstance where
  size : Nat
  data : Nat → Nat

/-- Modelled from the spec: bounds-checked read of `len` bytes at `offset`;
fails when `offset + len` exceeds the current memory size. -/
def MemoryInstance.get (m : MemoryInstance) (offset len : Nat) :
    Except InterpreterError (List Nat) :=
  if offset + len ≤ m.size then
    .ok ((List.range len).map (fun i => m.data (offset + i)))
  else .error .MemoryAccess

/-- Modelled from the spec: bounds-checked write of `buf` at `offset`;
fails when `offset + buf.length` exceeds the current memory size. -/
def MemoryInstance.set (m : MemoryInstance) (offset : Nat) (buf : List Nat) :
    Except InterpreterError MemoryInstance :=
  if offset + buf.length ≤ m.size then
    .ok { m with
          data := fun i =>
            if offset ≤ i ∧ i < offset + buf.length then buf.getD (i - offset) 0
            else m.data i }
  else .error .MemoryAccess

/-- Modelled from the spec: the Pointer Validator's validated pointer
(`ptr.rs` is not under `src/`): a checked wrapper around a 32-bit offset. -/
structure WasmPtr where
  offset : Nat
deriving DecidableEq

/-- Modelled from the spec: construction from the interpreter's signed
representation fails with an access violation when the raw value is
negative. -/
def WasmPtr.from_i32 (v : Int) : Except PtrError WasmPtr :=
  if v < 0 then .error .AccessViolation else .ok ⟨v.toNat⟩

/-- Modelled from the spec: a bounds-checked read of `len` bytes through a
validated pointer; fails with an access violation when `offset + len`
exceeds the memory's current size. -/
def WasmPtr.slice (p : WasmPtr) (len : Nat) (m : MemoryInstance) :
    Except PtrError (List Nat) :=
  match m.get p.offset len with
  | .ok l => .ok l
  | .error _ => .error .AccessViolation

/-- The external state interface (`evm::Ext`, outside this core): key-value
storage and self-destruct, each of which may fail.  It is modelled as a
deterministic oracle; mutation of blockchain state is outside the runtime's
own state. -/
structure EvmExt where
  storage_at : List Nat → Except Unit (List Nat)
  set_storage : List Nat → List Nat → Except Unit Unit
  suicide : List Nat → Except Unit Unit

/-- The runtime instance (`struct Runtime`): gas counter and limit (u64),
allocator top (u32), the external state interface and the shared memory
handle. -/
structure Runtime where
  gas_counter : Nat
  gas_limit : Nat
  dynamic_top : Nat
  ext : EvmExt
  memory : MemoryInstance

/-- `Runtime::with_params`. -/
def Runtime.with_params (ext : EvmExt) (memory : MemoryInstance)
    (stack_space : Nat) (gas_limit : Nat) : Runtime :=
  { gas_counter := 0
    gas_limit := gas_limit
    dynamic_top := stack_space
    memory := memory
    ext := ext }

/-- `value_stack.pop_as::<i32>()`: pop the top i32 from the operand stack,
failing on underflow. -/
def popAs (stack : List Int) : Except InterpreterError (Int × List Int) :=
  match stack with
  | [] => .error .StackError
  | v :: rest => .ok (v, rest)

/-- `Runtime::h256_at`: read 32 bytes through a validated pointer, mapping a
pointer error to a "Memory access violation" trap. -/
def Runtime.h256_at (rt : Runtime) (p : WasmPtr) :
    Except InterpreterError (List Nat) :=
  match p.slice 32 rt.memory with
  | .ok l => .ok l
  | .error _ => .error (.Trap "Memory access violation")

/-- `Runtime::pop_h256`: pop an i32, validate it as a pointer
(`WasmPtr::from_i32`, mapping its failure to a "Memory access violation"
trap) and read the 32 bytes it addresses. -/
def Runtime.pop_h256 (rt : Runtime) (stack : List Int) :
    Except InterpreterError (List Nat × List Int) :=
  match popAs stack with
  | .error e => .error e
  | .ok (v, rest) =>
    match WasmPtr.from_i32 v with
    | .error _ => .error (.Trap "Memory access violation")
    | .ok p =>
      match rt.h256_at p with
      | .error e => .error e
      | .ok l => .ok (l, rest)

/-- `Runtime::address_at`: read 20 bytes through a validated pointer. -/
def Runtime.address_at (rt : Runtime) (p : WasmPtr) :
    Except InterpreterError (List Nat) :=
  match p.slice 20 rt.memory with
  | .ok l => .ok l
  | .error _ => .error (.Trap "Memory access violation")

/-- `Runtime::pop_address`: pop an i32, validate it as a pointer and read the
20 bytes it addresses. -/
def Runtime.pop_address (rt : Runtime) (stack : List Int) :
    Except InterpreterError (List Nat × List Int) :=
  match popAs stack with
  | .error e => .error e
  | .ok (v, rest) =>
    match WasmPtr.from_i32 v with
    | .error _ => .error (.Trap "Memory access violation")
    | .ok p =>
      match rt.address_at p with
      | .error e => .error e
      | .ok l => .ok (l, rest)

/-- `Runtime::storage_write`: pop a 32-byte value then a 32-byte key (both
through the validated-pointer path) and store the pair via the external
state interface. -/
def Runtime.storage_write (rt : Runtime) (stack : List Int) :
    Except InterpreterError (Option Int) × Runtime :=
  match rt.pop_h256 stack with
  | .error e => (.error e, rt)
  | .ok (val, s1) =>
    match rt.pop_h256 s1 with
    | .error e => (.error e, rt)
    | .ok (key, _) =>
      match rt.ext.set_storage key val with
      | .error _ => (.error (.Trap "Storage update error"), rt)
      | .ok _ => (.ok (some 0), rt)

/-- `Runtime::storage_read`: pop a destination pointer (plain i32) then a
32-byte key (validated-pointer path); fetch the value from the external
state interface and write it at the destination through the memory
handle. -/
def Runtime.storage_read (rt : Runtime) (stack : List Int) :
    Except InterpreterError (Option Int) × Runtime :=
  match popAs stack with
  | .error e => (.error e, rt)
  | .ok (val_ptr, s1) =>
    match rt.pop_h256 s1 with
    | .error e => (.error e, rt)
    | .ok (key, _) =>
      match rt.ext.storage_at key with
      | .error _ => (.error (.Trap "Storage read error"), rt)
      | .ok val =>
        match rt.memory.set (toU32 val_ptr) val with
        | .error e => (.error e, rt)
        | .ok m => (.ok (some 0), { rt with memory := m })

/-- `Runtime::suicide`: pop a 20-byte refund address (validated-pointer path)
and invoke self-destruct on the external state interface. -/
def Runtime.suicide (rt : Runtime) (stack : List Int) :
    Except InterpreterError (Option Int) × Runtime :=
  match rt.pop_address stack with
  | .error e => (.error e, rt)
  | .ok (refund_address, _) =>
    match rt.ext.suicide refund_address with
    | .error _ => (.error (.Trap "Suicide error"), rt)
    | .ok _ => (.ok none, rt)

/-- `Runtime::malloc`: pop an amount, return the previous arena top and
advance the top (wrapping u32 addition). -/
def Runtime.malloc (rt : Runtime) (stack : List Int) :
    Except InterpreterError (Option Int) × Runtime :=
  match popAs stack with
  | .error e => (.error e, rt)
  | .ok (v, _) =>
    (.ok (some (toI32 rt.dynamic_top)),
     { rt with dynamic_top := (rt.dynamic_top + toU32 v) % 2 ^ 32 })

/-- `Runtime::alloc`: return the previous arena top and advance it by
`amount` (wrapping u32 addition); never fails. -/
def Runtime.alloc (rt : Runtime) (amount : Nat) :
    Except RuntimeError Nat × Runtime :=
  (.ok rt.dynamic_top,
   { rt with dynamic_top := (rt.dynamic_top + amount) % 2 ^ 32 })

/-- `Runtime::gas`: pop an i32 amount, sign-extend it to u64, and charge it
against the limit; the comparison and the update use wrapping u64
addition. -/
def Runtime.gas (rt : Runtime) (stack : List Int) :
    Except InterpreterError (Option Int) × Runtime :=
  match popAs stack with
  | .error e => (.error e, rt)
  | .ok (v, _) =>
    if (rt.gas_counter + toU64 v) % 2 ^ 64 > rt.gas_limit then
      (.error (.Trap ("Gas exceeds limits of " ++ toString rt.gas_limit)), rt)
    else
      (.ok none, { rt with gas_counter := (rt.gas_counter + toU64 v) % 2 ^ 64 })

/-- `Runtime::user_trap`: fail with the generic "unknown trap". -/
def Runtime.user_trap (rt : Runtime) (_stack : List Int) :
    Except InterpreterError (Option Int) × Runtime :=
  (.error (.Trap "unknown trap"), rt)

/-- `Runtime::user_noop`: succeed with no return value and no effect. -/
def Runtime.user_noop (rt : Runtime) (_stack : List Int) :
    Except InterpreterError (Option Int) × Runtime :=
  (.ok none, rt)

/-- `Runtime::gas_left`: the remaining gas, guarded by the defensive
invalid-gas-state check.  The source takes `&self`, so it cannot modify the
runtime; it is embedded as a pure function. -/
def Runtime.gas_left (rt : Runtime) : Except RuntimeError Nat :=
  if rt.gas_counter > rt.gas_limit then .error .InvalidGasState
  else .ok (rt.gas_limit - rt.gas_counter)

/-- The call arguments marshalled for a cross-contract call
(`CallArgs`): three 20-byte addresses, a 32-byte value and opaque input
data. -/
structure CallArgs where
  address : List Nat
  sender : List Nat
  origin : List Nat
  value : List Nat
  data : List Nat

/-- Modelled from the spec: `call_args.rs` is not under `src/`; the
serialized length of the args region is the three 20-byte addresses plus the
32-byte value (92 bytes) plus the input data. -/
def CallArgs.len (c : CallArgs) : Nat := 92 + c.data.length

/-- `LittleEndian::write_u32`: the four little-endian bytes of a u32. -/
def leU32 (n : Nat) : List Nat :=
  [n % 256, n / 256 % 256, n / 65536 % 256, n / 16777216 % 256]

/-- `Runtime::write_descriptor`: allocate 16 bytes for the call descriptor
and `call_args.len()` bytes for the args region, write the descriptor
(args pointer and args length little-endian, last 8 bytes zeroed) and then
the individual argument fields at their fixed offsets (u32 offset arithmetic
wraps). -/
def Runtime.write_descriptor (rt : Runtime) (call_args : CallArgs) :
    Except RuntimeError Nat × Runtime :=
  match rt.alloc 16 with
  | (.error e, rt1) => (.error e, rt1)
  | (.ok d_ptr, rt1) =>
    match rt1.alloc call_args.len with
    | (.error e, rt2) => (.error e, rt2)
    | (.ok args_ptr, rt2) =>
      match rt2.memory.set d_ptr
          (leU32 args_ptr ++ leU32 call_args.len ++ List.replicate 8 0) with
      | .error e => (.error (.Interpreter e), rt2)
      | .ok m1 =>
        match m1.set args_ptr call_args.address with
        | .error e => (.error (.Interpreter e), { rt2 with memory := m1 })
        | .ok m2 =>
          match m2.set ((args_ptr + 20) % 2 ^ 32) call_args.sender with
          | .error e => (.error (.Interpreter e), { rt2 with memory := m2 })
          | .ok m3 =>
            match m3.set ((args_ptr + 40) % 2 ^ 32) call_args.origin with
            | .error e => (.error (.Interpreter e), { rt2 with memory := m3 })
            | .ok m4 =>
              match m4.set ((args_ptr + 60) % 2 ^ 32) call_args.value with
              | .error e => (.error (.Interpreter e), { rt2 with memory := m4 })
              | .ok m5 =>
                match m5.set ((args_ptr + 92) % 2 ^ 32) call_args.data with
                | .error e => (.error (.Interpreter e), { rt2 with memory := m5 })
                | .ok m6 => (.ok d_ptr, { rt2 with memory := m6 })

/-- Modelled from the spec: whether a continuation byte is in the UTF-8
continuation range. -/
def contByte (b : Nat) : Bool := 0x80 ≤ b && b ≤ 0xBF

/-- Modelled from the spec: UTF-8 validity as checked by Rust's
`String::from_utf8` (RFC 3629 well-formedness), used by the `_debug` host
call. -/
def validUtf8 : List Nat → Bool
  | [] => true
  | b :: rest =>
    if b ≤ 0x7F then validUtf8 rest
    else if 0xC2 ≤ b && b ≤ 0xDF then
      match rest with
      | c1 :: r => contByte c1 && validUtf8 r
      | [] => false
    else if b = 0xE0 then
      match rest with
      | c1 :: c2 :: r => (0xA0 ≤ c1 && c1 ≤ 0xBF) && contByte c2 && validUtf8 r
      | _ => false
    else if (0xE1 ≤ b && b ≤ 0xEC) || (0xEE ≤ b && b ≤ 0xEF) then
      match rest with
      | c1 :: c2 :: r => contByte c1 && contByte c2 && validUtf8 r
      | _ => false
    else if b = 0xED then
      match rest with
      | c1 :: c2 :: r => (0x80 ≤ c1 && c1 ≤ 0x9F) && contByte c2 && validUtf8 r
      | _ => false
    else if b = 0xF0 then
      match rest with
      | c1 :: c2 :: c3 :: r =>
        (0x90 ≤ c1 && c1 ≤ 0xBF) && contByte c2 && contByte c3 && validUtf8 r
      | _ => false
    else if 0xF1 ≤ b && b ≤ 0xF3 then
      match rest with
      | c1 :: c2 :: c3 :: r =>
        contByte c1 && contByte c2 && contByte c3 && validUtf8 r
      | _ => false
    else if b = 0xF4 then
      match rest with
      | c1 :: c2 :: c3 :: r =>
        (0x80 ≤ c1 && c1 ≤ 0x8F) && contByte c2 && contByte c3 && validUtf8 r
      | _ => false
    else false

/-- `Runtime::debug_log`: pop a length then a pointer, read that many bytes
from memory through the shared memory handle, and require them to decode as
UTF-8. -/
def Runtime.debug_log (rt : Runtime) (stack : List Int) :
    Except InterpreterError (Option Int) × Runtime :=
  match popAs stack with
  | .error e => (.error e, rt)
  | .ok (lenV, s1) =>
    match popAs s1 with
    | .error e => (.error e, rt)
    | .ok (ptrV, _) =>
      match rt.memory.get (toU32 ptrV) (toU32 lenV) with
      | .error e => (.error e, rt)
      | .ok bytes =>
        if validUtf8 bytes then (.ok none, rt)
        else (.error (.Trap "Debug log utf-8 decoding error"), rt)

/-- `UserFunctionExecutor::execute` for `Runtime`: dispatch on the host
function name. -/
def Runtime.execute (rt : Runtime) (name : String) (stack : List Int) :
    Except InterpreterError (Option Int) × Runtime :=
  if name = "_malloc" then rt.malloc stack
  else if name = "_free" then rt.user_noop stack
  else if name = "_storage_read" then rt.storage_read stack
  else if name = "_storage_write" then rt.storage_write stack
  else if name = "_suicide" then rt.suicide stack
  else if name = "_debug" then rt.debug_log stack
  else if name = "gas" then rt.gas stack
  else rt.user_trap stack

/-! Concrete instances used by witnesses and counterexamples. -/

/-- An external state interface whose operations all succeed; storage reads
return the all-zero 32-byte value. -/
def extOk : EvmExt :=
  { storage_at := fun _ => .ok (List.replicate 32 0)
    set_storage := fun _ _ => .ok ()
    suicide := fun _ => .ok () }

/-- A 1 KiB memory filled with the byte 65 (ASCII letter A). -/
def memSmall : MemoryInstance := ⟨1024, fun _ => 65⟩

/-- A 1 KiB memory filled with the byte 255 (never valid UTF-8). -/
def memFF : MemoryInstance := ⟨1024, fun _ => 255⟩

/-- A memory slightly larger than 2 GiB, filled with the byte 65. -/
def memBig : MemoryInstance := ⟨2 ^ 31 + 40, fun _ => 65⟩

/-- A 400-byte zeroed memory. -/
def memZero400 : MemoryInstance := ⟨400, fun _ => 0⟩

/-- A full 4 GiB zeroed memory (the maximum wasm linear-memory size). -/
def memTop : MemoryInstance := ⟨2 ^ 32, fun _ => 0⟩

/-- A runtime with a small gas counter well below its limit. -/
def rtGasLow : Runtime := ⟨10, 100, 64, extOk, memSmall⟩

/-- A runtime whose gas counter and limit both sit at the top of the u64
range (reachable: with this limit, a single charge of the sign-extended
amount -1 moves the counter from 0 to the limit). -/
def rtGasFull : Runtime := ⟨2 ^ 64 - 1, 2 ^ 64 - 1, 64, extOk, memSmall⟩

/-- A runtime whose gas counter exceeds its limit. -/
def rtBadGas : Runtime := ⟨101, 100, 64, extOk, memSmall⟩

/-- A runtime whose allocator top sits at the top of the u32 range. -/
def rtTopMax : Runtime := ⟨0, 1000, 2 ^ 32 - 1, extOk, memSmall⟩

/-- A runtime over the larger-than-2-GiB memory. -/
def rtNegPtr : Runtime := ⟨0, 1000, 64, extOk, memBig⟩

/-- A runtime over the memory of invalid UTF-8 bytes. -/
def rtFF : Runtime := ⟨0, 1000, 64, extOk, memFF⟩

/-- A runtime for exercising the call marshaller on a comfortable memory. -/
def rtLayout : Runtime := ⟨0, 1000, 100, extOk, memZero400⟩

/-- A runtime whose allocator top is 108 bytes below the 4 GiB boundary of a
full-size memory. -/
def rtWrapTop : Runtime := ⟨0, 1000, 2 ^ 32 - 108, extOk, memTop⟩

/-- Small concrete call arguments with two bytes of input data. -/
def caSmall : CallArgs :=
  ⟨List.replicate 20 1, List.replicate 20 2, List.replicate 20 3,
   List.replicate 32 4, [9, 8]⟩

/-- Concrete call arguments with a single input byte 171. -/
def caOne : CallArgs :=
  ⟨List.replicate 20 1, List.replicate 20 2, List.replicate 20 3,
   List.replicate 32 4, [171]⟩

/-! Helper lemmas shared by several claims. -/

/-- Evaluation of `Runtime.gas` on a non-empty stack. -/
theorem gas_eval (rt : Runtime) (v : Int) (rest : List Int) :
    rt.gas (v :: rest) =
      if (rt.gas_counter + toU64 v) % 2 ^ 64 > rt.gas_limit then
        (.error (.Trap ("Gas exceeds limits of " ++ toString rt.gas_limit)), rt)
      else
        (.ok none,
         { rt with gas_counter := (rt.gas_counter + toU64 v) % 2 ^ 64 }) := rfl

/-- `malloc` touches only the allocator top. -/
theorem malloc_gas_counter (rt : Runtime) (stack : List Int) :
    ((rt.malloc stack).2).gas_counter = rt.gas_counter := by
  unfold Runtime.malloc popAs
  cases stack <;> rfl

/-- `storage_write` never modifies the runtime state. -/
theorem storage_write_state (rt : Runtime) (stack : List Int) :
    (rt.storage_write stack).2 = rt := by
  unfold Runtime.storage_write
  repeat' split
  all_goals rfl

/-- `storage_read` touches only the memory. -/
theorem storage_read_gas_counter (rt : Runtime) (stack : List Int) :
    ((rt.storage_read stack).2).gas_counter = rt.gas_counter := by
  unfold Runtime.storage_read
  repeat' split
  all_goals rfl

/-- `suicide` never modifies the runtime state. -/
theorem suicide_state (rt : Runtime) (stack : List Int) :
    (rt.suicide stack).2 = rt := by
  unfold Runtime.suicide
  repeat' split
  all_goals rfl

/-- `debug_log` never modifies the runtime state. -/
theorem debug_log_state (rt : Runtime) (stack : List Int) :
    (rt.debug_log stack).2 = rt := by
  unfold Runtime.debug_log
  repeat' split
  all_goals rfl

/-- The allocator top after `write_descriptor`, on every path. -/
theorem write_descriptor_dynamic_top (rt : Runtime) (ca : CallArgs) :
    ((rt.write_descriptor ca).2).dynamic_top =
      ((rt.dynamic_top + 16) % 2 ^ 32 + ca.len) % 2 ^ 32 := by
  unfold Runtime.write_descriptor Runtime.alloc
  dsimp only
  repeat' split
  all_goals rfl

/-! Claims. -/

/-- Counterexample for claim C1: in the state where both the gas counter and
the limit are 2^64 - 1, a charge of 1 has an exact prospective sum 2^64
exceeding the limit, yet the call succeeds (the wrapping 64-bit comparison
sees 0) and the counter drops to 0 instead of staying at its pre-call
value. -/
theorem gas_charge_exact_cex :
    rtGasFull.gas_limit < rtGasFull.gas_counter + toU64 1 ∧
    (rtGasFull.gas ((1 : Int) :: [])).1 = .ok none ∧
    ((rtGasFull.gas ((1 : Int) :: [])).2).gas_counter = 0 :=
  ⟨by decide, rfl, rfl⟩

/-- Claim C1 (amended): the `gas` host call pops an amount, sign-extends it
to u64, and compares the wrapping 64-bit sum `(gas_counter + a) % 2^64`
against the limit: if that sum exceeds the limit the call fails with the
exceeds-limit trap and the state, in particular the gas counter, is
left exactly at its pre-call value; otherwise the call succeeds, returns no
value, and sets the counter to the wrapped sum (which equals the exact sum
whenever the 64-bit addition does not overflow). -/
theorem gas_charge_wrapping (rt : Runtime) (v : Int) (rest : List Int) :
    ((rt.gas_counter + toU64 v) % 2 ^ 64 > rt.gas_limit →
      rt.gas (v :: rest) =
        (.error (.Trap ("Gas exceeds limits of " ++ toString rt.gas_limit)),
         rt)) ∧
    ((rt.gas_counter + toU64 v) % 2 ^ 64 ≤ rt.gas_limit →
      rt.gas (v :: rest) =
        (.ok none,
         { rt with gas_counter := (rt.gas_counter + toU64 v) % 2 ^ 64 })) := by
  rw [gas_eval]
  constructor
  · intro h; rw [if_pos h]
  · intro h; rw [if_neg (by omega)]

/-- Witness for claim C1's theorem: an over-limit charge traps and leaves
the state alone; an in-limit charge succeeds and lands at the wrapped
(here exact) sum. -/
theorem gas_charge_wrapping_witness :
    rtGasLow.gas ((120 : Int) :: []) =
      (.error (.Trap ("Gas exceeds limits of " ++ toString rtGasLow.gas_limit)),
       rtGasLow) ∧
    rtGasLow.gas ((5 : Int) :: []) =
      (.ok none,
       { rtGasLow with gas_counter := (rtGasLow.gas_counter + toU64 5) % 2 ^ 64 }) :=
  ⟨(gas_charge_wrapping rtGasLow 120 []).1 (by decide),
   (gas_charge_wrapping rtGasLow 5 []).2 (by decide)⟩

/-- Counterexample for claim C4: at the top of the u64 range a successful
`gas` charge wraps and the gas counter decreases from 2^64 - 1 to 0. -/
theorem gas_counter_decrease_cex :
    rtGasFull.gas_counter = 2 ^ 64 - 1 ∧
    ((rtGasFull.execute "gas" ((1 : Int) :: [])).2).gas_counter = 0 ∧
    ¬(rtGasFull.gas_counter ≤
        ((rtGasFull.execute "gas" ((1 : Int) :: [])).2).gas_counter) :=
  ⟨rfl, rfl, by decide⟩

/-- Claim C4 (amended): every host call other than `gas` leaves the gas
counter exactly unchanged; a failing `gas` call leaves the whole state
unchanged; and a `gas` call whose 64-bit sum does not overflow leaves the
counter non-decreasing. -/
theorem gas_counter_monotone :
    (∀ (rt : Runtime) (name : String) (stack : List Int), name ≠ "gas" →
        ((rt.execute name stack).2).gas_counter = rt.gas_counter) ∧
    (∀ (rt : Runtime) (v : Int) (rest : List Int),
        rt.gas_counter + toU64 v < 2 ^ 64 →
        rt.gas_counter ≤ ((rt.execute "gas" (v :: rest)).2).gas_counter) ∧
    (∀ (rt : Runtime) (stack : List Int) (e : InterpreterError),
        (rt.execute "gas" stack).1 = .error e →
        (rt.execute "gas" stack).2 = rt) := by
  refine ⟨fun rt name stack h => ?_, fun rt v rest h => ?_,
          fun rt stack e h => ?_⟩
  · unfold Runtime.execute
    split_ifs <;>
      first
        | rfl
        | exact malloc_gas_counter rt stack
        | exact storage_read_gas_counter rt stack
        | rw [storage_write_state]
        | rw [suicide_state]
        | rw [debug_log_state]
  · have he : rt.execute "gas" (v :: rest) = rt.gas (v :: rest) := rfl
    rw [he, gas_eval]
    split
    · exact le_refl _
    · show rt.gas_counter ≤ (rt.gas_counter + toU64 v) % 2 ^ 64
      rw [Nat.mod_eq_of_lt h]
      omega
  · have he : rt.execute "gas" stack = rt.gas stack := rfl
    rw [he] at h ⊢
    cases stack with
    | nil => rfl
    | cons v rest =>
      rw [gas_eval] at h ⊢
      split at h
      · rename_i hc
        rw [if_pos hc]
      · simp at h

/-- Witness for claim C4's theorem: a non-`gas` call, an in-range `gas`
charge, and a failing `gas` charge, each observing the gas counter. -/
theorem gas_counter_monotone_witness :
    ((rtGasLow.execute "_free" []).2).gas_counter = rtGasLow.gas_counter ∧
    rtGasLow.gas_counter ≤ ((rtGasLow.execute "gas" ((5 : Int) :: [])).2).gas_counter ∧
    (rtGasLow.execute "gas" ((120 : Int) :: [])).2 = rtGasLow :=
  ⟨gas_counter_monotone.1 rtGasLow "_free" [] (by decide),
   gas_counter_monotone.2.1 rtGasLow 5 [] (by decide),
   gas_counter_monotone.2.2 rtGasLow ((120 : Int) :: [])
     (.Trap ("Gas exceeds limits of " ++ toString rtGasLow.gas_limit))
     (by decide)⟩

/-- Claim C5: `gas_left` returns `gas_limit - gas_counter` whenever the
counter is within the limit, and fails with `InvalidGasState` whenever the
counter exceeds the limit (the source takes `&self`, so it cannot modify
any runtime state). -/
theorem gas_left_spec (rt : Runtime) :
    (rt.gas_counter ≤ rt.gas_limit →
      rt.gas_left = .ok (rt.gas_limit - rt.gas_counter)) ∧
    (rt.gas_limit < rt.gas_counter →
      rt.gas_left = .error .InvalidGasState) := by
  unfold Runtime.gas_left
  constructor
  · intro h; rw [if_neg (by omega)]
  · intro h; rw [if_pos (by omega)]

/-- Witness for claim C5's theorem at a healthy and at a corrupted gas
state. -/
theorem gas_left_spec_witness :
    rtGasLow.gas_left = .ok (rtGasLow.gas_limit - rtGasLow.gas_counter) ∧
    rtBadGas.gas_left = .error .InvalidGasState :=
  ⟨(gas_left_spec rtGasLow).1 (by decide),
   (gas_left_spec rtBadGas).2 (by decide)⟩

/-- Counterexample for claim C6: with the allocator top at 2^32 - 1, the
offsets returned by `alloc 2` and then `alloc 4` are 2^32 - 1 and 1, whose
exact difference is not 2. -/
theorem alloc_adjacent_cex :
    (rtTopMax.alloc 2).1 = .ok (2 ^ 32 - 1) ∧
    (((rtTopMax.alloc 2).2).alloc 4).1 = .ok 1 ∧
    ¬(((1 : Int)) - ((2 : Int) ^ 32 - 1) = 2) :=
  ⟨rfl, rfl, by decide⟩

/-- Claim C6 (amended): provided the first allocation does not wrap the
32-bit top (`dynamic_top + n < 2^32`), `alloc n` followed by `alloc m`
returns offsets `p1 = dynamic_top` and `p2 = p1 + n` (difference exactly
`n`), and the regions `[p1, p1+n)` and `[p2, p2+m)` are disjoint. -/
theorem alloc_adjacent (rt : Runtime) (n m : Nat)
    (h : rt.dynamic_top + n < 2 ^ 32) :
    (rt.alloc n).1 = .ok rt.dynamic_top ∧
    (((rt.alloc n).2).alloc m).1 = .ok (rt.dynamic_top + n) ∧
    ∀ x, ¬((rt.dynamic_top ≤ x ∧ x < rt.dynamic_top + n) ∧
           (rt.dynamic_top + n ≤ x ∧ x < rt.dynamic_top + n + m)) := by
  refine ⟨rfl, ?_, fun x => by omega⟩
  show (Except.ok ((rt.dynamic_top + n) % 2 ^ 32) : Except RuntimeError Nat) =
    .ok (rt.dynamic_top + n)
  rw [Nat.mod_eq_of_lt h]

/-- Witness for claim C6's theorem: two allocations of 8 and 4 bytes from
top 64 return 64 and 72, and the point 66 of the first region is outside
the second. -/
theorem alloc_adjacent_witness :
    (rtGasLow.alloc 8).1 = .ok rtGasLow.dynamic_top ∧
    (((rtGasLow.alloc 8).2).alloc 4).1 = .ok (rtGasLow.dynamic_top + 8) ∧
    ¬((rtGasLow.dynamic_top ≤ 66 ∧ 66 < rtGasLow.dynamic_top + 8) ∧
      (rtGasLow.dynamic_top + 8 ≤ 66 ∧ 66 < rtGasLow.dynamic_top + 8 + 4)) := by
  have h := alloc_adjacent rtGasLow 8 4 (by decide)
  exact ⟨h.1, h.2.1, h.2.2 66⟩

/-- Counterexample for claim C7: with the allocator top at 2^32 - 1, a
`_malloc` of 2 wraps the top down to 1, so `dynamic_top` decreases. -/
theorem dynamic_top_decrease_cex :
    rtTopMax.dynamic_top = 2 ^ 32 - 1 ∧
    ((rtTopMax.execute "_malloc" ((2 : Int) :: [])).2).dynamic_top = 1 ∧
    ¬(rtTopMax.dynamic_top ≤
        ((rtTopMax.execute "_malloc" ((2 : Int) :: [])).2).dynamic_top) :=
  ⟨rfl, rfl, by decide⟩

/-- Claim C7 (amended): `dynamic_top` never decreases across `alloc`, the
`_malloc` host call, or `write_descriptor`, provided the 32-bit advance
does not overflow (`dynamic_top + requested < 2^32`; for
`write_descriptor` the requested total is `16 + call_args.len`). -/
theorem dynamic_top_monotone :
    (∀ (rt : Runtime) (amount : Nat), rt.dynamic_top + amount < 2 ^ 32 →
        rt.dynamic_top ≤ ((rt.alloc amount).2).dynamic_top) ∧
    (∀ (rt : Runtime) (v : Int) (rest : List Int),
        rt.dynamic_top + toU32 v < 2 ^ 32 →
        rt.dynamic_top ≤ ((rt.execute "_malloc" (v :: rest)).2).dynamic_top) ∧
    (∀ (rt : Runtime) (ca : CallArgs),
        rt.dynamic_top + 16 + ca.len < 2 ^ 32 →
        rt.dynamic_top ≤ ((rt.write_descriptor ca).2).dynamic_top) := by
  refine ⟨fun rt amount h => ?_, fun rt v rest h => ?_, fun rt ca h => ?_⟩
  · show rt.dynamic_top ≤ (rt.dynamic_top + amount) % 2 ^ 32
    rw [Nat.mod_eq_of_lt h]
    omega
  · show rt.dynamic_top ≤ (rt.dynamic_top + toU32 v) % 2 ^ 32
    rw [Nat.mod_eq_of_lt h]
    omega
  · rw [write_descriptor_dynamic_top]
    rw [Nat.mod_eq_of_lt (a := rt.dynamic_top + 16) (by omega)]
    rw [Nat.mod_eq_of_lt (by omega)]
    omega

/-- Witness for claim C7's theorem: an `alloc`, a `_malloc` and a
`write_descriptor` from top 64, each leaving the top no smaller. -/
theorem dynamic_top_monotone_witness :
    rtGasLow.dynamic_top ≤ ((rtGasLow.alloc 100).2).dynamic_top ∧
    rtGasLow.dynamic_top ≤
      ((rtGasLow.execute "_malloc" ((7 : Int) :: [])).2).dynamic_top ∧
    rtGasLow.dynamic_top ≤ ((rtGasLow.write_descriptor caSmall).2).dynamic_top :=
  ⟨dynamic_top_monotone.1 rtGasLow 100 (by decide),
   dynamic_top_monotone.2.1 rtGasLow 7 [] (by decide),
   dynamic_top_monotone.2.2 rtGasLow caSmall (by decide)⟩

/-- Claim C10: `alloc` always succeeds and returns the pre-allocation
`dynamic_top`, advancing the top with wrapping 32-bit addition, and the
`_malloc` host call on a well-typed non-empty operand stack does the same
(returning the old top reinterpreted as an i32); neither can produce the
`Allocator` error, even when the advance overflows 32 bits. -/
theorem alloc_never_fails :
    (∀ (rt : Runtime) (amount : Nat),
        rt.alloc amount =
          (.ok rt.dynamic_top,
           { rt with dynamic_top := (rt.dynamic_top + amount) % 2 ^ 32 })) ∧
    (∀ (rt : Runtime) (v : Int) (rest : List Int),
        rt.execute "_malloc" (v :: rest) =
          (.ok (some (toI32 rt.dynamic_top)),
           { rt with dynamic_top := (rt.dynamic_top + toU32 v) % 2 ^ 32 })) :=
  ⟨fun _ _ => rfl, fun _ _ _ => rfl⟩

/-- Claim C8: dispatching any name outside the seven recognized host
functions fails with the "unknown trap" condition and leaves the runtime
state exactly unchanged. -/
theorem execute_unknown_name (rt : Runtime) (name : String) (stack : List Int)
    (h : name ∉ ["_malloc", "_free", "_storage_read", "_storage_write",
                 "_suicide", "_debug", "gas"]) :
    rt.execute name stack = (.error (.Trap "unknown trap"), rt) := by
  simp only [List.mem_cons, List.not_mem_nil, or_false, not_or] at h
  obtain ⟨h1, h2, h3, h4, h5, h6, h7⟩ := h
  unfold Runtime.execute
  rw [if_neg h1, if_neg h2, if_neg h3, if_neg h4, if_neg h5, if_neg h6,
      if_neg h7]
  rfl

/-- Witness for claim C8's theorem at the unrecognized name "storage". -/
theorem execute_unknown_name_witness :
    rtGasLow.execute "storage" [] =
      (.error (.Trap "unknown trap"), rtGasLow) :=
  execute_unknown_name rtGasLow "storage" [] (by decide)

/-- Claim C9: `_debug` pops a length first and then a pointer, reads exactly
that many bytes from memory starting at the pointer (both values
reinterpreted as u32), fails with the UTF-8 decoding trap when those bytes
are not valid UTF-8, and succeeds returning no value (and leaving the
state unchanged) when they are valid. -/
theorem debug_log_utf8 (rt : Runtime) (lenV ptrV : Int) (rest : List Int)
    (hb : toU32 ptrV + toU32 lenV ≤ rt.memory.size) :
    (validUtf8 ((List.range (toU32 lenV)).map
        (fun i => rt.memory.data (toU32 ptrV + i))) = true →
      rt.debug_log (lenV :: ptrV :: rest) = (.ok none, rt)) ∧
    (validUtf8 ((List.range (toU32 lenV)).map
        (fun i => rt.memory.data (toU32 ptrV + i))) = false →
      rt.debug_log (lenV :: ptrV :: rest) =
        (.error (.Trap "Debug log utf-8 decoding error"), rt)) := by
  unfold Runtime.debug_log popAs MemoryInstance.get
  dsimp only
  rw [if_pos hb]
  dsimp only
  constructor
  · intro hv
    rw [if_pos hv]
  · intro hv
    rw [if_neg (by simp [hv])]

/-- Witness for claim C9's theorem: two letters A decode as UTF-8 and the
call succeeds; a single byte 255 is invalid UTF-8 and the call fails with
the decoding trap. -/
theorem debug_log_utf8_witness :
    rtGasLow.debug_log ((2 : Int) :: (3 : Int) :: []) = (.ok none, rtGasLow) ∧
    rtFF.debug_log ((1 : Int) :: (0 : Int) :: []) =
      (.error (.Trap "Debug log utf-8 decoding error"), rtFF) :=
  ⟨(debug_log_utf8 rtGasLow 2 3 [] (by decide)).1 (by decide),
   (debug_log_utf8 rtFF 1 0 [] (by decide)).2 (by decide)⟩

/-- Counterexample for claim C2: on a memory larger than 2 GiB, `_debug`
succeeds in reading 4 bytes at the popped pointer -2^31, even though the
Pointer Validator rejects that pointer outright (WasmPtr construction fails
on every negative value); the read therefore did not pass through WasmPtr
construction. -/
theorem debug_read_without_wasmptr_cex :
    (rtNegPtr.debug_log ((4 : Int) :: (-(2 ^ 31) : Int) :: [])).1 = .ok none ∧
    WasmPtr.from_i32 (-(2 ^ 31) : Int) = .error PtrError.AccessViolation :=
  ⟨by decide, by decide⟩

/-- Claim C2 (amended): the 32-byte key and 20-byte address operands are
read through WasmPtr construction (a negative pointer fails with the
access-violation trap before any memory is touched), while the destination
write of `_storage_read` and the message read of `_debug` go directly
through the memory handle's own bounds check (offset + length within the
current size, after reinterpreting the popped i32 as unsigned) without
constructing a WasmPtr; every memory access is therefore bounds-checked,
but not every one passes through the Pointer Validator. -/
theorem memory_access_bounds :
    (∀ (rt : Runtime) (lenV ptrV : Int) (rest : List Int),
        (rt.debug_log (lenV :: ptrV :: rest)).1 = .ok none →
        toU32 ptrV + toU32 lenV ≤ rt.memory.size) ∧
    (∀ (rt : Runtime) (v : Int) (rest : List Int),
        (∀ k l, rt.ext.storage_at k = .ok l → l.length = 32) →
        (rt.storage_read (v :: rest)).1 = .ok (some 0) →
        toU32 v + 32 ≤ rt.memory.size) ∧
    (∀ (rt : Runtime) (v : Int) (rest : List Int), v < 0 →
        rt.pop_h256 (v :: rest) = .error (.Trap "Memory access violation")) := by
  refine ⟨fun rt lenV ptrV rest h => ?_, fun rt v rest hwf h => ?_,
          fun rt v rest hv => ?_⟩
  · unfold Runtime.debug_log popAs MemoryInstance.get at h
    dsimp only at h
    by_cases hc : toU32 ptrV + toU32 lenV ≤ rt.memory.size
    · exact hc
    · rw [if_neg hc] at h
      simp at h
  · unfold Runtime.storage_read popAs at h
    dsimp only at h
    cases hk : rt.pop_h256 rest with
    | error e => rw [hk] at h; simp at h
    | ok kv =>
      rw [hk] at h
      obtain ⟨key, s⟩ := kv
      dsimp only at h
      cases hs : rt.ext.storage_at key with
      | error e => rw [hs] at h; simp at h
      | ok val =>
        rw [hs] at h
        dsimp only at h
        have hlen := hwf key val hs
        unfold MemoryInstance.set at h
        by_cases hc : toU32 v + val.length ≤ rt.memory.size
        · rw [hlen] at hc
          exact hc
        · rw [if_neg hc] at h
          simp at h
  · unfold Runtime.pop_h256 popAs WasmPtr.from_i32
    dsimp only
    rw [if_pos hv]

/-- Witness for claim C2's theorem: a successful `_debug` read yields its
bound, a successful `_storage_read` yields its destination bound, and a
negative key pointer is rejected by WasmPtr construction. -/
theorem memory_access_bounds_witness :
    (toU32 0 + toU32 2 ≤ rtGasLow.memory.size) ∧
    (toU32 5 + 32 ≤ rtGasLow.memory.size) ∧
    rtGasLow.pop_h256 ((-1 : Int) :: []) =
      .error (.Trap "Memory access violation") :=
  ⟨memory_access_bounds.1 rtGasLow 2 0 [] (by decide),
   memory_access_bounds.2.1 rtGasLow 5 [0]
     (fun k l h => by
       simp only [rtGasLow, extOk] at h
       injection h with h2
       rw [← h2]
       simp)
     (by decide),
   memory_access_bounds.2.2 rtGasLow (-1) [] (by decide)⟩

/-- Counterexample for claim C3: with the allocator top 108 bytes below the
4 GiB boundary of a full-size memory, `write_descriptor` succeeds and the
descriptor's pointer field designates the args region at 2^32 - 92, but the
single input-data byte 171 lands at the wrapped offset 0 rather than at
args offset 92 (position 2^32, where the memory holds its untouched 0). -/
theorem write_descriptor_wrap_cex :
    (rtWrapTop.write_descriptor caOne).1 = .ok (2 ^ 32 - 108) ∧
    (((rtWrapTop.write_descriptor caOne).2).memory.data (2 ^ 32 - 108) +
       256 * ((rtWrapTop.write_descriptor caOne).2).memory.data (2 ^ 32 - 107) +
       65536 * ((rtWrapTop.write_descriptor caOne).2).memory.data (2 ^ 32 - 106) +
       16777216 * ((rtWrapTop.write_descriptor caOne).2).memory.data (2 ^ 32 - 105)
       = 2 ^ 32 - 92) ∧
    caOne.data.getD 0 0 = 171 ∧
    ((rtWrapTop.write_descriptor caOne).2).memory.data ((2 ^ 32 - 92) + 92) = 0 ∧
    ((rtWrapTop.write_descriptor caOne).2).memory.data 0 = 171 :=
  ⟨by decide, by decide, by decide, by decide, by decide⟩

/-- Claim C3 (amended): provided the 16-byte descriptor and the args region
fit in memory (`dynamic_top + 108 + |data| ≤ size`) and the allocations do
not wrap the 32-bit offset space (`dynamic_top + 108 + |data| ≤ 2^32`) —
which is exactly when the marshalling succeeds — `write_descriptor` returns
the pre-call `dynamic_top` and writes there a 16-byte descriptor whose
bytes [0:4) hold the args-region pointer (`dynamic_top + 16`)
little-endian, bytes [4:8) hold the args-region length (`92 + |data|`)
little-endian and bytes [8:16) are zero, and writes the args region with
the target address (20 bytes) at offset 0, the sender (20 bytes) at offset
20, the origin (20 bytes) at offset 40, the value (32 bytes) at offset 60
and the input data from offset 92; the final conjunct checks that the
4-byte encoding really is little-endian (it decodes back to the encoded
number). -/
theorem write_descriptor_layout (rt : Runtime) (ca : CallArgs)
    (hA : ca.address.length = 20) (hS : ca.sender.length = 20)
    (hO : ca.origin.length = 20) (hV : ca.value.length = 32)
    (hn32 : rt.dynamic_top + 108 + ca.data.length ≤ 2 ^ 32)
    (hsz : rt.dynamic_top + 108 + ca.data.length ≤ rt.memory.size) :
    (rt.write_descriptor ca).1 = .ok rt.dynamic_top ∧
    (∀ i, i < 4 →
      ((rt.write_descriptor ca).2).memory.data (rt.dynamic_top + i) =
        (leU32 (rt.dynamic_top + 16)).getD i 0) ∧
    (∀ i, i < 4 →
      ((rt.write_descriptor ca).2).memory.data (rt.dynamic_top + 4 + i) =
        (leU32 (92 + ca.data.length)).getD i 0) ∧
    (∀ i, 8 ≤ i → i < 16 →
      ((rt.write_descriptor ca).2).memory.data (rt.dynamic_top + i) = 0) ∧
    (∀ i, i < 20 →
      ((rt.write_descriptor ca).2).memory.data (rt.dynamic_top + 16 + i) =
        ca.address.getD i 0) ∧
    (∀ i, i < 20 →
      ((rt.write_descriptor ca).2).memory.data (rt.dynamic_top + 16 + 20 + i) =
        ca.sender.getD i 0) ∧
    (∀ i, i < 20 →
      ((rt.write_descriptor ca).2).memory.data (rt.dynamic_top + 16 + 40 + i) =
        ca.origin.getD i 0) ∧
    (∀ i, i < 32 →
      ((rt.write_descriptor ca).2).memory.data (rt.dynamic_top + 16 + 60 + i) =
        ca.value.getD i 0) ∧
    (∀ i, i < ca.data.length →
      ((rt.write_descriptor ca).2).memory.data (rt.dynamic_top + 16 + 92 + i) =
        ca.data.getD i 0) ∧
    (∀ n, n < 2 ^ 32 →
      (leU32 n).getD 0 0 + 256 * (leU32 n).getD 1 0 +
        65536 * (leU32 n).getD 2 0 + 16777216 * (leU32 n).getD 3 0 = n) := by
  have p32 : (2 : Nat) ^ 32 = 4294967296 := by norm_num
  rw [p32] at hn32
  unfold Runtime.write_descriptor Runtime.alloc CallArgs.len
  dsimp only
  simp only [p32]
  unfold MemoryInstance.set
  simp only [List.length_append, List.length_cons, List.length_nil,
             List.length_replicate, leU32, hA, hS, hO, hV]
  have c1 : rt.dynamic_top + (0 + 1 + 1 + 1 + 1 + (0 + 1 + 1 + 1 + 1) + 8) ≤
      rt.memory.size := by omega
  rw [if_pos c1]
  dsimp only
  have c2 : (rt.dynamic_top + 16) % 4294967296 + 20 ≤ rt.memory.size := by
    omega
  rw [if_pos c2]
  dsimp only
  have c3 : ((rt.dynamic_top + 16) % 4294967296 + 20) % 4294967296 + 20 ≤
      rt.memory.size := by omega
  rw [if_pos c3]
  dsimp only
  have c4 : ((rt.dynamic_top + 16) % 4294967296 + 40) % 4294967296 + 20 ≤
      rt.memory.size := by omega
  rw [if_pos c4]
  dsimp only
  have c5 : ((rt.dynamic_top + 16) % 4294967296 + 60) % 4294967296 + 32 ≤
      rt.memory.size := by omega
  rw [if_pos c5]
  dsimp only
  have c6 : ((rt.dynamic_top + 16) % 4294967296 + 92) % 4294967296 +
      ca.data.length ≤ rt.memory.size := by omega
  rw [if_pos c6]
  dsimp only
  have em1 : (rt.dynamic_top + 16) % 4294967296 = rt.dynamic_top + 16 := by
    omega
  simp only [em1]
  have em2 : (rt.dynamic_top + 16 + 20) % 4294967296 = rt.dynamic_top + 36 := by
    omega
  have em3 : (rt.dynamic_top + 16 + 40) % 4294967296 = rt.dynamic_top + 56 := by
    omega
  have em4 : (rt.dynamic_top + 16 + 60) % 4294967296 = rt.dynamic_top + 76 := by
    omega
  simp only [em2, em3, em4]
  refine ⟨trivial, ?_, ?_, ?_, ?_, ?_, ?_, ?_, ?_, ?_⟩
  · intro i hi
    rw [if_neg (by omega), if_neg (by omega), if_neg (by omega),
        if_neg (by omega), if_neg (by omega), if_pos (by omega)]
    have hidx : rt.dynamic_top + i - rt.dynamic_top = i := by omega
    rw [hidx]
    interval_cases i <;> rfl
  · intro i hi
    rw [if_neg (by omega), if_neg (by omega), if_neg (by omega),
        if_neg (by omega), if_neg (by omega), if_pos (by omega)]
    have hidx : rt.dynamic_top + 4 + i - rt.dynamic_top = 4 + i := by omega
    rw [hidx]
    interval_cases i <;> rfl
  · intro i h8 h16
    rw [if_neg (by omega), if_neg (by omega), if_neg (by omega),
        if_neg (by omega), if_neg (by omega), if_pos (by omega)]
    have hidx : rt.dynamic_top + i - rt.dynamic_top = i := by omega
    rw [hidx]
    interval_cases i <;> rfl
  · intro i hi
    rw [if_neg (by omega), if_neg (by omega), if_neg (by omega),
        if_neg (by omega), if_pos (by omega)]
    have hidx : rt.dynamic_top + 16 + i - (rt.dynamic_top + 16) = i := by omega
    rw [hidx]
  · intro i hi
    rw [if_neg (by omega), if_neg (by omega), if_neg (by omega),
        if_pos (by omega)]
    have hidx : rt.dynamic_top + 16 + 20 + i - (rt.dynamic_top + 36) = i := by
      omega
    rw [hidx]
  · intro i hi
    rw [if_neg (by omega), if_neg (by omega), if_pos (by omega)]
    have hidx : rt.dynamic_top + 16 + 40 + i - (rt.dynamic_top + 56) = i := by
      omega
    rw [hidx]
  · intro i hi
    rw [if_neg (by omega), if_pos (by omega)]
    have hidx : rt.dynamic_top + 16 + 60 + i - (rt.dynamic_top + 76) = i := by
      omega
    rw [hidx]
  · intro i hi
    have em5 : (rt.dynamic_top + 16 + 92) % 4294967296 = rt.dynamic_top + 108 := by
      omega
    rw [em5]
    rw [if_pos (by omega)]
    have hidx : rt.dynamic_top + 16 + 92 + i - (rt.dynamic_top + 108) = i := by
      omega
    rw [hidx]
  · intro n hm
    simp only [leU32, List.getD_cons_zero, List.getD_cons_succ]
    omega

/-- Witness for claim C3's theorem: a concrete marshalling from allocator
top 100 into a 400-byte memory, observing the returned offset, an address
byte, a data byte and a reserved-zero byte. -/
theorem write_descriptor_layout_witness :
    (rtLayout.write_descriptor caSmall).1 = .ok rtLayout.dynamic_top ∧
    ((rtLayout.write_descriptor caSmall).2).memory.data
        (rtLayout.dynamic_top + 16 + 3) = caSmall.address.getD 3 0 ∧
    ((rtLayout.write_descriptor caSmall).2).memory.data
        (rtLayout.dynamic_top + 16 + 92 + 1) = caSmall.data.getD 1 0 ∧
    ((rtLayout.write_descriptor caSmall).2).memory.data
        (rtLayout.dynamic_top + 9) = 0 := by
  have h := write_descriptor_layout rtLayout caSmall (by decide) (by decide)
    (by decide) (by decide) (by decide) (by decide)
  exact ⟨h.1, h.2.2.2.2.1 3 (by decide), h.2.2.2.2.2.2.2.2.1 1 (by decide),
         h.2.2.2.1 9 (by decide) (by decide)⟩
